import Mathlib

/-
Verification of the brake-pedal calibration backend
(Backend/models/brakeModel.js, Backend/controllers/brakeController.js,
Backend/routes/brakeRoutes.js, Backend/services/serialConnection.js).

Shallow embedding conventions:
* JavaScript numbers are modelled as exact rationals (ℚ).  All claims
  settled here concern branch structure, clamping and rounding to the
  integer grid, which is insensitive to the rational-versus-binary-float
  distinction at the inputs used.
* `Math.round x` is `⌊x + 1/2⌋` (JS rounds half toward +∞).
* `Number.toFixed(2)` followed by `parseFloat` is `⌊x·100 + 1/2⌋ / 100`
  (the ECMAScript spec picks the larger candidate on ties).
* `Date.now()` is an explicit `now : ℕ` parameter threaded at each
  call site that stamps a timestamp.
* Stateful controller methods become functions `request → state →
  (response, state)`; an HTTP 400/409-style early `return res.status(400)`
  is an error response paired with the state at the moment of return.
-/

/-- JS `Math.round`: round half toward positive infinity. -/
def jsRound (x : ℚ) : ℤ := ⌊x + 1/2⌋

/-- JS `parseFloat(x.toFixed(2))`: round to two decimal places,
ties toward positive infinity. -/
def jsToFixed2 (q : ℚ) : ℚ := (⌊q * 100 + 1/2⌋ : ℚ) / 100

/-- The brake state object built by `createBrakeData` in
Backend/models/brakeModel.js (brakeSchema fields).  `value` and
`percentage` are integers: they default to 0 and are only ever
assigned `Math.round` results. -/
structure BrakeData where
  value : ℤ
  percentage : ℤ
  force : ℚ
  active : Bool
  rawReading : ℚ
  maxForce : ℚ
  deadZone : ℚ
  timestamp : ℕ
  sensorType : String
deriving DecidableEq

/-- The `initialData` object passed to `createBrakeData`: the repo's two
call sites pass either `{}` or `{maxForce, deadZone}`. -/
structure BrakeInit where
  maxForce : Option ℚ
  deadZone : Option ℚ

/-- `createBrakeData(initialData)` from brakeModel.js: schema defaults
(value 0, percentage 0, force 0, active false, rawReading 0,
maxForce 5.0, deadZone 1.0, timestamp Date.now(), sensorType "HX711"),
then `Object.assign` with the supplied overrides. -/
def createBrakeData (init : BrakeInit) (now : ℕ) : BrakeData where
  value := 0
  percentage := 0
  force := 0
  active := false
  rawReading := 0
  maxForce := init.maxForce.getD 5
  deadZone := init.deadZone.getD 1
  timestamp := now
  sensorType := "HX711"

/-- `updateBrakeData(currentData, newReading)` from brakeModel.js,
mirroring each sequential assignment:
`calculatedForce = Math.abs(newReading / 1000000)`; dead-zone branch
sets `force`/`active`; `force = Math.min(force, maxForce)`;
`value = force > 0 ? Math.round(force / maxForce * 1023) : 0`;
`percentage = Math.round(value / 1023 * 100)`; `timestamp = Date.now()`. -/
def updateBrakeData (currentData : BrakeData) (newReading : ℚ) (now : ℕ) : BrakeData :=
  let calculatedForce : ℚ := |newReading / 1000000|
  let force1 : ℚ :=
    if calculatedForce < currentData.deadZone then 0
    else calculatedForce - currentData.deadZone
  let active1 : Bool :=
    if calculatedForce < currentData.deadZone then false else true
  let force2 : ℚ := min force1 currentData.maxForce
  let value2 : ℤ :=
    if 0 < force2 then jsRound (force2 / currentData.maxForce * 1023) else 0
  let percentage2 : ℤ := jsRound ((value2 : ℚ) / 1023 * 100)
  { currentData with
    rawReading := newReading
    force := force2
    active := active1
    value := value2
    percentage := percentage2
    timestamp := now }

/-- `validateBrakeData(data).isValid` from brakeModel.js: every schema
field with a min/max bound is range-checked (value 0..1023,
percentage 0..100, force ≥ 0, maxForce 0.1..50, deadZone ≥ 0); in this
embedding all fields are well-typed so only the range checks remain. -/
def validateBrakeData (d : BrakeData) : Bool :=
  decide (0 ≤ d.value ∧ d.value ≤ 1023) &&
  decide (0 ≤ d.percentage ∧ d.percentage ≤ 100) &&
  decide (0 ≤ d.force) &&
  decide (1/10 ≤ d.maxForce ∧ d.maxForce ≤ 50) &&
  decide (0 ≤ d.deadZone)

/-- The object literal returned by `getBrakeTelemetryData` in
brakeModel.js: telemetry only, no configuration fields. -/
structure BrakeTelemetry where
  value : ℤ
  percentage : ℤ
  force : ℚ
  active : Bool
  timestamp : ℕ
deriving DecidableEq

/-- `getBrakeTelemetryData(data)` from brakeModel.js:
`{value, percentage, force: parseFloat(force.toFixed(2)), active, timestamp}`. -/
def getBrakeTelemetryData (d : BrakeData) : BrakeTelemetry where
  value := d.value
  percentage := d.percentage
  force := jsToFixed2 d.force
  active := d.active
  timestamp := d.timestamp

/-- `BrakeController.resetBrake` (both controller versions): snapshot the
current `{maxForce, deadZone}` and rebuild `brakeData` via
`createBrakeData(currentConfig)`. -/
def resetBrake (d : BrakeData) (now : ℕ) : BrakeData :=
  createBrakeData ⟨some d.maxForce, some d.deadZone⟩ now

/-- A field of a JSON request body as the controllers inspect it:
absent (`undefined`), a number, or present with some non-number type. -/
inductive JsOpt where
  | undef
  | num (q : ℚ)
  | nonNumber
deriving DecidableEq

/-- Body of a PUT /api/brake/config request. -/
structure ConfigReq where
  maxForce : JsOpt
  deadZone : JsOpt

/-- The 400-responses `configureBrake` can return. -/
inductive ConfigError where
  | invalidMaxForce
  | invalidDeadZone
deriving DecidableEq

/-- `BrakeController.configureBrake` (identical logic in both controller
versions): if `maxForce !== undefined`, reject non-numbers and values
≤ 0, otherwise assign `this.brakeData.maxForce` immediately; then the
same for `deadZone` (reject negatives); finally stamp the timestamp and
respond with success.  An early error `return` leaves the state exactly
as it stands at that point — note `maxForce` may already be assigned. -/
def configureBrake (req : ConfigReq) (d : BrakeData) (now : ℕ) :
    Option ConfigError × BrakeData :=
  let step1 : Option ConfigError × BrakeData :=
    match req.maxForce with
    | .undef => (none, d)
    | .num q => if q ≤ 0 then (some .invalidMaxForce, d)
                else (none, { d with maxForce := q })
    | .nonNumber => (some .invalidMaxForce, d)
  match step1 with
  | (some e, d1) => (some e, d1)
  | (none, d1) =>
    match req.deadZone with
    | .undef => (none, { d1 with timestamp := now })
    | .num q => if q < 0 then (some .invalidDeadZone, d1)
                else (none, { d1 with deadZone := q, timestamp := now })
    | .nonNumber => (some .invalidDeadZone, d1)

/-- The 400-responses of the `validateConfigParams` middleware. -/
inductive MiddlewareError where
  | badMaxForce
  | badDeadZone
deriving DecidableEq

/-- The `validateConfigParams` middleware in the route files: rejects
`maxForce` outside `(0, 50]` and `deadZone` outside `[0, 10)` (or of
non-number type), else calls `next()`. -/
def validateConfigParams (req : ConfigReq) : Option MiddlewareError :=
  let mfCheck : Option MiddlewareError :=
    match req.maxForce with
    | .undef => none
    | .num q => if q ≤ 0 ∨ 50 < q then some .badMaxForce else none
    | .nonNumber => some .badMaxForce
  match mfCheck with
  | some e => some e
  | none =>
    match req.deadZone with
    | .undef => none
    | .num q => if q < 0 ∨ 10 ≤ q then some .badDeadZone else none
    | .nonNumber => some .badDeadZone

/-- The PUT /api/brake/config route stack in registration order: the
route files first register `router.put('/config', asyncHandler(... configureBrake ...))`
and only afterwards `router.put('/config', validateConfigParams)`.
Express dispatches layers in registration order and `configureBrake`
always ends the request without calling `next()`, so the later
`validateConfigParams` layer is unreachable: a config request is handled
by `configureBrake` alone. -/
def handleConfigRequest (req : ConfigReq) (d : BrakeData) (now : ℕ) :
    Option ConfigError × BrakeData :=
  configureBrake req d now

/-- The 400-responses of `BrakeController.updateBrake`. -/
inductive UpdateError where
  | notANumber
  | arduinoConnected
deriving DecidableEq

/-- `BrakeController.updateBrake` (Arduino-aware controller version):
first rejects a body whose `rawReading` is not a number, then rejects
the request if the Arduino is connected, otherwise replaces
`this.brakeData` with `updateBrakeData(this.brakeData, rawReading)`. -/
def updateBrake (isArduinoConnected : Bool) (rawReading : JsOpt)
    (d : BrakeData) (now : ℕ) : Option UpdateError × BrakeData :=
  match rawReading with
  | .num r =>
    if isArduinoConnected then (some .arduinoConnected, d)
    else (none, updateBrakeData d r now)
  | _ => (some .notANumber, d)

/-- One pedal channel as stored in `ArduinoSerialConnection.currentData`. -/
structure PedalState where
  value : ℕ
  percentage : ℕ
  active : Bool
deriving DecidableEq

/-- `ArduinoSerialConnection.currentData`: three channels, a status token,
a timestamp, and (after the first successful parse) the raw line. -/
structure ArduinoData where
  throttle : PedalState
  brake : PedalState
  clutch : PedalState
  status : String
  timestamp : ℕ
  rawData : Option String
deriving DecidableEq

/-- The `currentData` initialised in the `ArduinoSerialConnection`
constructor: all channels zeroed/inactive, status "LIBERADOS". -/
def initialArduinoData (now : ℕ) : ArduinoData where
  throttle := ⟨0, 0, false⟩
  brake := ⟨0, 0, false⟩
  clutch := ⟨0, 0, false⟩
  status := "LIBERADOS"
  timestamp := now
  rawData := none

/-- The characters JS `\s` matches that can occur on a serial line
(space, tab, CR, LF, vertical tab, form feed). -/
def isJsSpace (c : Char) : Bool :=
  c = ' ' || c = '\t' || c = '\n' || c = '\r' || c = '\x0b' || c = '\x0c'

/-- Strip an exact literal from the front of the character list,
returning the remainder on success. -/
def stripLit : List Char → List Char → Option (List Char)
  | [], cs => some cs
  | _ :: _, [] => none
  | l :: ls, c :: cs => if c = l then stripLit ls cs else none

/-- Value of a non-empty digit string, as `parseInt` computes it. -/
def digitsToNat (ds : List Char) : ℕ :=
  List.foldl (fun n c => 10 * n + (c.toNat - '0'.toNat)) 0 ds

/-- Attempt the regex `LABEL\s*(\d+)\/1023\s*\((\d+)%\)` at the current
position.  Each greedy `\s*`/`\d+` piece is followed by a character it
cannot match (`\d` after `\s*`, `/` and `%` after `\d+`, `(` after the
second `\s*`), so greedy matching without backtracking coincides with
the regex engine's backtracking search. -/
def matchPedalAt (label : String) (cs : List Char) : Option (ℕ × ℕ) :=
  match stripLit label.toList cs with
  | none => none
  | some r1 =>
    let r2 := r1.dropWhile isJsSpace
    let d1 := r2.takeWhile Char.isDigit
    if d1 = [] then none else
    match stripLit "/1023".toList (r2.dropWhile Char.isDigit) with
    | none => none
    | some r3 =>
      match stripLit "(".toList (r3.dropWhile isJsSpace) with
      | none => none
      | some r5 =>
        let d2 := r5.takeWhile Char.isDigit
        if d2 = [] then none else
        match stripLit "%)".toList (r5.dropWhile Char.isDigit) with
        | none => none
        | some _ => some (digitsToNat d1, digitsToNat d2)

/-- Leftmost search: try the matcher at every start position, as a
non-global `String.match` does. -/
def searchAux (tryAt : List Char → Option (ℕ × ℕ)) : List Char → Option (ℕ × ℕ)
  | [] => tryAt []
  | c :: cs =>
    match tryAt (c :: cs) with
    | some r => some r
    | none => searchAux tryAt cs

/-- `rawData.match(/Acel:\s*(\d+)\/1023\s*\((\d+)%\)/)`, as the captured
`(value, percentage)` pair. -/
def throttleMatch (s : String) : Option (ℕ × ℕ) :=
  searchAux (matchPedalAt "Acel:") s.toList

/-- `rawData.match(/Freno:\s*(\d+)\/1023\s*\((\d+)%\)/)`. -/
def brakeMatch (s : String) : Option (ℕ × ℕ) :=
  searchAux (matchPedalAt "Freno:") s.toList

/-- Does the character list end with the given token? -/
def endsWithTok (s tok : List Char) : Bool :=
  decide (s.drop (s.length - tok.length) = tok)

/-- `rawData.match(/Clutch:\s*(\d+)\/1023\s*\((\d+)%\)/)`. -/
def clutchMatch (s : String) : Option (ℕ × ℕ) :=
  searchAux (matchPedalAt "Clutch:") s.toList

/-- `rawData.match(/(ACELERANDO|FRENANDO|EMBRAGUE|LIBERADOS)$/)`: with no
multiline flag, `$` anchors at the very end of the string, so this is a
suffix test; no token is a suffix of another, so alternation order is
immaterial. -/
def statusMatch (s : String) : Option String :=
  if endsWithTok s.toList "ACELERANDO".toList then some "ACELERANDO"
  else if endsWithTok s.toList "FRENANDO".toList then some "FRENANDO"
  else if endsWithTok s.toList "EMBRAGUE".toList then some "EMBRAGUE"
  else if endsWithTok s.toList "LIBERADOS".toList then some "LIBERADOS"
  else none

/-- `ArduinoSerialConnection.parseArduinoData(rawData)`: when all four
patterns match, replace `this.currentData` (each channel's `active` is
`parseInt(percentage) > 0`) and invoke the data callback with it;
otherwise neither happens.  The second component is the payload handed
to the callback (`none` when the callback is not invoked). -/
def parseArduinoData (st : ArduinoData) (rawData : String) (now : ℕ) :
    ArduinoData × Option ArduinoData :=
  match throttleMatch rawData, brakeMatch rawData, clutchMatch rawData,
        statusMatch rawData with
  | some (tv, tp), some (bv, bp), some (cv, cp), some stat =>
    let newData : ArduinoData :=
      { throttle := ⟨tv, tp, decide (0 < tp)⟩
        brake := ⟨bv, bp, decide (0 < bp)⟩
        clutch := ⟨cv, cp, decide (0 < cp)⟩
        status := stat
        timestamp := now
        rawData := some rawData }
    (newData, some newData)
  | _, _, _, _ => (st, none)

/-- Connection-related state of `ArduinoSerialConnection`:
`isConnected` and `connectionAttempts` are instance fields; `portOpen`
is the underlying port's open flag, `opening` an open in progress, and
`pendingRetries` the number of `setTimeout(() => this.connect(), 3000)`
retries scheduled by `attemptReconnection` that have not yet fired
(the class stores no timer handle, so nothing can clear them). -/
structure ConnState where
  isConnected : Bool
  portOpen : Bool
  opening : Bool
  connectionAttempts : ℕ
  pendingRetries : ℕ
deriving DecidableEq

/-- `this.maxRetries` from the constructor. -/
def maxRetries : ℕ := 5

/-- `attemptReconnection()`: below the retry bound, bump the counter and
schedule a delayed `connect()`; otherwise give up. -/
def attemptReconnection (s : ConnState) : ConnState :=
  if s.connectionAttempts < maxRetries then
    { s with connectionAttempts := s.connectionAttempts + 1
             pendingRetries := s.pendingRetries + 1 }
  else s

/-- `connect()` up to the asynchronous open: an existing connection makes
it return early; otherwise a port is selected and a `SerialPort` is
constructed, beginning an open attempt. -/
def connectCall (s : ConnState) : ConnState :=
  if s.isConnected then s else { s with opening := true }

/-- The port's `open` event: mark connected and reset the retry counter. -/
def openEvent (s : ConnState) : ConnState :=
  if s.opening then
    { s with isConnected := true, portOpen := true, opening := false
             connectionAttempts := 0 }
  else s

/-- The port's `error` event handler: clear `isConnected` and call
`attemptReconnection`. -/
def errorEvent (s : ConnState) : ConnState :=
  attemptReconnection { s with isConnected := false }

/-- The port's `close` event handler: identical to the error handler. -/
def closeEvent (s : ConnState) : ConnState :=
  attemptReconnection { s with isConnected := false }

/-- `disconnect()`: close the port if it is open, then set
`isConnected = false`.  No timer handle exists, so `pendingRetries`
is untouched. -/
def disconnectCall (s : ConnState) : ConnState :=
  let s1 := if s.portOpen then { s with portOpen := false } else s
  { s1 with isConnected := false }

/-- A scheduled retry fires: the pending timer is consumed and its body
runs `this.connect()`. -/
def retryFire (s : ConnState) : ConnState :=
  connectCall { s with pendingRetries := s.pendingRetries - 1 }

lemma jsRound_nonneg {x : ℚ} (hx : 0 ≤ x) : 0 ≤ jsRound x := by
  unfold jsRound
  exact Int.floor_nonneg.mpr (by linarith)

lemma jsRound_le_of_le {x : ℚ} {B : ℤ} (h : x ≤ (B : ℚ)) : jsRound x ≤ B := by
  unfold jsRound
  have h1 : (⌊x + 1/2⌋ : ℚ) ≤ x + 1/2 := Int.floor_le _
  have h2 : ((⌊x + 1/2⌋ : ℤ) : ℚ) < ((B : ℚ) + 1) := by linarith
  have h3 : (⌊x + 1/2⌋ : ℤ) < B + 1 := by exact_mod_cast h2
  omega

lemma updateBrakeData_force (d : BrakeData) (r : ℚ) (t : ℕ) :
    (updateBrakeData d r t).force =
      min (if |r / 1000000| < d.deadZone then 0 else |r / 1000000| - d.deadZone)
        d.maxForce := rfl

lemma updateBrakeData_active (d : BrakeData) (r : ℚ) (t : ℕ) :
    (updateBrakeData d r t).active =
      if |r / 1000000| < d.deadZone then false else true := rfl

lemma updateBrakeData_value (d : BrakeData) (r : ℚ) (t : ℕ) :
    (updateBrakeData d r t).value =
      if 0 < (updateBrakeData d r t).force
      then jsRound ((updateBrakeData d r t).force / d.maxForce * 1023)
      else 0 := rfl

lemma updateBrakeData_percentage (d : BrakeData) (r : ℚ) (t : ℕ) :
    (updateBrakeData d r t).percentage =
      jsRound (((updateBrakeData d r t).value : ℚ) / 1023 * 100) := rfl

lemma updateBrakeData_maxForce (d : BrakeData) (r : ℚ) (t : ℕ) :
    (updateBrakeData d r t).maxForce = d.maxForce := rfl

lemma updateBrakeData_deadZone (d : BrakeData) (r : ℚ) (t : ℕ) :
    (updateBrakeData d r t).deadZone = d.deadZone := rfl

/-- C1: for every raw reading and every configuration with
`maxForce > 0` and `deadZone ≥ 0`, the snapshot produced by
`updateBrakeData` has `force ∈ [0, maxForce]`, `value ∈ [0, 1023]` and
`percentage ∈ [0, 100]`. -/
theorem updateBrakeData_output_ranges (d : BrakeData) (r : ℚ) (t : ℕ)
    (hmf : 0 < d.maxForce) (hdz : 0 ≤ d.deadZone) :
    0 ≤ (updateBrakeData d r t).force ∧
    (updateBrakeData d r t).force ≤ d.maxForce ∧
    0 ≤ (updateBrakeData d r t).value ∧
    (updateBrakeData d r t).value ≤ 1023 ∧
    0 ≤ (updateBrakeData d r t).percentage ∧
    (updateBrakeData d r t).percentage ≤ 100 := by
  have hF0 : 0 ≤ (updateBrakeData d r t).force := by
    rw [updateBrakeData_force]
    rcases lt_or_ge (|r / 1000000|) d.deadZone with h | h
    · rw [if_pos h]
      exact le_min le_rfl hmf.le
    · rw [if_neg (not_lt.mpr h)]
      exact le_min (sub_nonneg.mpr h) hmf.le
  have hF1 : (updateBrakeData d r t).force ≤ d.maxForce := by
    rw [updateBrakeData_force]
    exact min_le_right _ _
  have hV0 : 0 ≤ (updateBrakeData d r t).value := by
    rw [updateBrakeData_value]
    split_ifs with h
    · exact jsRound_nonneg
        (mul_nonneg (div_nonneg hF0 hmf.le) (by norm_num))
    · exact le_rfl
  have hV1 : (updateBrakeData d r t).value ≤ 1023 := by
    rw [updateBrakeData_value]
    split_ifs with h
    · apply jsRound_le_of_le
      have h2 : (updateBrakeData d r t).force / d.maxForce ≤ 1 :=
        (div_le_one hmf).mpr hF1
      push_cast
      nlinarith
    · norm_num
  have hP0 : 0 ≤ (updateBrakeData d r t).percentage := by
    rw [updateBrakeData_percentage]
    have hc : (0 : ℚ) ≤ ((updateBrakeData d r t).value : ℚ) := by
      exact_mod_cast hV0
    exact jsRound_nonneg (mul_nonneg (div_nonneg hc (by norm_num)) (by norm_num))
  have hP1 : (updateBrakeData d r t).percentage ≤ 100 := by
    rw [updateBrakeData_percentage]
    apply jsRound_le_of_le
    have hc : ((updateBrakeData d r t).value : ℚ) ≤ 1023 := by
      exact_mod_cast hV1
    have hc0 : (0 : ℚ) ≤ ((updateBrakeData d r t).value : ℚ) := by
      exact_mod_cast hV0
    push_cast
    rw [div_mul_eq_mul_div, div_le_iff₀ (by norm_num : (0:ℚ) < 1023)]
    nlinarith
  exact ⟨hF0, hF1, hV0, hV1, hP0, hP1⟩

/-- Witness for C1 at the default configuration (maxForce 5, deadZone 1)
and raw reading 3000000 (magnitude 3 kg). -/
theorem updateBrakeData_output_ranges_witness :
    0 < (createBrakeData ⟨none, none⟩ 0).maxForce ∧
    0 ≤ (createBrakeData ⟨none, none⟩ 0).deadZone ∧
    (0 ≤ (updateBrakeData (createBrakeData ⟨none, none⟩ 0) 3000000 0).force ∧
     (updateBrakeData (createBrakeData ⟨none, none⟩ 0) 3000000 0).force ≤
       (createBrakeData ⟨none, none⟩ 0).maxForce ∧
     0 ≤ (updateBrakeData (createBrakeData ⟨none, none⟩ 0) 3000000 0).value ∧
     (updateBrakeData (createBrakeData ⟨none, none⟩ 0) 3000000 0).value ≤ 1023 ∧
     0 ≤ (updateBrakeData (createBrakeData ⟨none, none⟩ 0) 3000000 0).percentage ∧
     (updateBrakeData (createBrakeData ⟨none, none⟩ 0) 3000000 0).percentage ≤ 100) :=
  ⟨by decide, by decide,
    updateBrakeData_output_ranges (createBrakeData ⟨none, none⟩ 0) 3000000 0
      (by decide) (by decide)⟩

/-- C2 counterexample: with the default configuration
(maxForce 5, deadZone 1) and raw reading 1000000 the magnitude equals
the dead zone exactly, so the else-branch sets `active = true` and
`force = 1 - 1 = 0`: the snapshot has `active = true` with `force = 0`,
refuting "active is true iff force > 0". -/
theorem updateBrakeData_active_without_force :
    (updateBrakeData (createBrakeData ⟨none, none⟩ 0) 1000000 0).active = true ∧
    (updateBrakeData (createBrakeData ⟨none, none⟩ 0) 1000000 0).force = 0 := by
  constructor
  · rw [updateBrakeData_active]
    norm_num [createBrakeData]
  · rw [updateBrakeData_force]
    norm_num [createBrakeData]

/-- C2 amended: with `maxForce > 0`, the snapshot has `active = true`
iff the magnitude reaches the dead zone, and `force = 0` iff the
magnitude is at most the dead zone; so `force > 0` implies
`active = true`, but at magnitude exactly equal to the dead zone the
snapshot has `active = true` together with `force = 0`. -/
theorem updateBrakeData_active_force_zero (d : BrakeData) (r : ℚ) (t : ℕ)
    (hmf : 0 < d.maxForce) :
    ((updateBrakeData d r t).active = true ↔ d.deadZone ≤ |r / 1000000|) ∧
    ((updateBrakeData d r t).force = 0 ↔ |r / 1000000| ≤ d.deadZone) := by
  constructor
  · rw [updateBrakeData_active]
    split_ifs with h
    · simp only [Bool.false_eq_true, false_iff, not_le]
      exact h
    · simp only [true_iff]
      exact not_lt.mp h
  · rw [updateBrakeData_force]
    split_ifs with h
    · rw [min_eq_left hmf.le]
      exact ⟨fun _ => h.le, fun _ => rfl⟩
    · have hge : d.deadZone ≤ |r / 1000000| := not_lt.mp h
      constructor
      · intro h0
        rcases min_cases (|r / 1000000| - d.deadZone) d.maxForce with
          ⟨he, _⟩ | ⟨he, hle⟩
        · rw [he] at h0
          linarith [sub_eq_zero.mp h0]
        · rw [he] at h0
          linarith
      · intro hle
        have hz : |r / 1000000| - d.deadZone = 0 := by linarith
        rw [hz]
        exact min_eq_left hmf.le

/-- Witness for the amended C2 at the default configuration and raw
reading 3000000 (magnitude 3 kg, above the 1 kg dead zone). -/
theorem updateBrakeData_active_force_zero_witness :
    0 < (createBrakeData ⟨none, none⟩ 0).maxForce ∧
    (((updateBrakeData (createBrakeData ⟨none, none⟩ 0) 3000000 7).active = true ↔
        (createBrakeData ⟨none, none⟩ 0).deadZone ≤ |(3000000 : ℚ) / 1000000|) ∧
     ((updateBrakeData (createBrakeData ⟨none, none⟩ 0) 3000000 7).force = 0 ↔
        |(3000000 : ℚ) / 1000000| ≤ (createBrakeData ⟨none, none⟩ 0).deadZone)) :=
  ⟨by decide,
    updateBrakeData_active_force_zero (createBrakeData ⟨none, none⟩ 0) 3000000 7
      (by decide)⟩

/-- C5 counterexample: with `maxForce = 2 ≤ deadZone = 3` (the invariant
`deadZone < maxForce` violated) and raw reading 10000000 (magnitude
10 kg), the force 10 - 3 = 7 clamps to `maxForce = 2 > 0` and the
snapshot normalizes to `value = round(2/2·1023) = 1023`, refuting
"all readings normalize to zero". -/
theorem updateBrakeData_invariant_violation_nonzero :
    (createBrakeData ⟨some 2, some 3⟩ 0).maxForce ≤
      (createBrakeData ⟨some 2, some 3⟩ 0).deadZone ∧
    (updateBrakeData (createBrakeData ⟨some 2, some 3⟩ 0) 10000000 0).value = 1023 := by
  constructor
  · norm_num [createBrakeData]
  · have hf : (updateBrakeData (createBrakeData ⟨some 2, some 3⟩ 0) 10000000 0).force = 2 := by
      rw [updateBrakeData_force]
      norm_num [createBrakeData]
    rw [updateBrakeData_value, hf]
    norm_num [createBrakeData, jsRound, Int.floor_eq_iff]

/-- C5 amended: if `deadZone ≥ maxForce`, every reading whose magnitude
is at most `deadZone` normalizes to `value = 0`; readings with
magnitude above the dead zone still clamp to `maxForce` and may
normalize to a positive value. -/
theorem updateBrakeData_zero_up_to_deadZone (d : BrakeData) (r : ℚ) (t : ℕ)
    (hinv : d.maxForce ≤ d.deadZone) (hr : |r / 1000000| ≤ d.deadZone) :
    (updateBrakeData d r t).value = 0 := by
  have hle : (updateBrakeData d r t).force ≤ 0 := by
    rw [updateBrakeData_force]
    split_ifs with h
    · exact min_le_of_left_le le_rfl
    · exact min_le_of_left_le (by linarith)
  rw [updateBrakeData_value, if_neg (not_lt.mpr hle)]

/-- Witness for the amended C5: maxForce 2 ≤ deadZone 3 and a 2 kg
magnitude reading normalizes to zero. -/
theorem updateBrakeData_zero_up_to_deadZone_witness :
    (createBrakeData ⟨some 2, some 3⟩ 0).maxForce ≤
      (createBrakeData ⟨some 2, some 3⟩ 0).deadZone ∧
    |(2000000 : ℚ) / 1000000| ≤ (createBrakeData ⟨some 2, some 3⟩ 0).deadZone ∧
    (updateBrakeData (createBrakeData ⟨some 2, some 3⟩ 0) 2000000 4).value = 0 :=
  ⟨by norm_num [createBrakeData], by norm_num [createBrakeData],
    updateBrakeData_zero_up_to_deadZone (createBrakeData ⟨some 2, some 3⟩ 0) 2000000 4
      (by norm_num [createBrakeData]) (by norm_num [createBrakeData])⟩

/-- C3: the PUT /config route does not enforce the `(0, 50]` bound.
`configureBrake` is the layer that handles the request (the
`validateConfigParams` middleware is registered after it and never
runs), and it accepts `maxForce = 60`, mutating the calibration from
its default 5 to 60 and stamping a new timestamp — even though the
middleware would have rejected the request and the model's own
`validateBrakeData` marks the resulting state invalid
(brakeSchema caps maxForce at 50). -/
theorem handleConfigRequest_accepts_maxForce60 :
    handleConfigRequest ⟨.num 60, .undef⟩ (createBrakeData ⟨none, none⟩ 0) 7 =
      (none, { createBrakeData ⟨none, none⟩ 0 with maxForce := 60, timestamp := 7 }) ∧
    (handleConfigRequest ⟨.num 60, .undef⟩ (createBrakeData ⟨none, none⟩ 0) 7).2.maxForce = 60 ∧
    validateConfigParams ⟨.num 60, .undef⟩ = some .badMaxForce ∧
    validateBrakeData
      (handleConfigRequest ⟨.num 60, .undef⟩ (createBrakeData ⟨none, none⟩ 0) 7).2 = false := by
  refine ⟨?_, ?_, ?_, ?_⟩ <;>
    norm_num [handleConfigRequest, configureBrake, validateConfigParams,
      validateBrakeData, createBrakeData]

/-- C4 counterexample: `configureBrake({maxForce: 10, deadZone: -1})` on
the default state reports the deadZone validation error, yet
`maxForce` has already been mutated from 5 to 10 when the error is
returned — state is not preserved across the validation error. -/
theorem configureBrake_error_mutates_maxForce :
    (configureBrake ⟨.num 10, .num (-1)⟩ (createBrakeData ⟨none, none⟩ 0) 7).1 =
      some .invalidDeadZone ∧
    (configureBrake ⟨.num 10, .num (-1)⟩ (createBrakeData ⟨none, none⟩ 0) 7).2.maxForce = 10 ∧
    (createBrakeData ⟨none, none⟩ 0).maxForce = 5 := by
  refine ⟨?_, ?_, ?_⟩ <;> norm_num [configureBrake, createBrakeData]

/-- C4 amended: a validation error on `maxForce` (non-number or ≤ 0)
leaves the state entirely unchanged whatever the deadZone field holds;
but a request whose `maxForce` is a valid positive number and whose
`deadZone` is invalid (negative or non-number) returns the error with
`maxForce` already updated — only `deadZone`, the timestamp and the
remaining fields retain their prior values.  A deadZone error with
`maxForce` absent leaves the state unchanged. -/
theorem configureBrake_error_state (d : BrakeData) (t : ℕ)
    (q q2 q0 : ℚ) (dzv : JsOpt) (hq : 0 < q) (hq2 : q2 < 0) (hq0 : q0 ≤ 0) :
    configureBrake ⟨.nonNumber, dzv⟩ d t = (some .invalidMaxForce, d) ∧
    configureBrake ⟨.num q0, dzv⟩ d t = (some .invalidMaxForce, d) ∧
    configureBrake ⟨.num q, .num q2⟩ d t =
      (some .invalidDeadZone, { d with maxForce := q }) ∧
    configureBrake ⟨.num q, .nonNumber⟩ d t =
      (some .invalidDeadZone, { d with maxForce := q }) ∧
    configureBrake ⟨.undef, .num q2⟩ d t = (some .invalidDeadZone, d) ∧
    configureBrake ⟨.undef, .nonNumber⟩ d t = (some .invalidDeadZone, d) := by
  refine ⟨?_, ?_, ?_, ?_, ?_, ?_⟩ <;>
    simp [configureBrake, hq0, not_le.mpr hq, hq2, hq.not_le]

/-- Witness for the amended C4 at concrete inputs (q = 10, q2 = -1,
q0 = 0, deadZone field 4 in the maxForce-error cases). -/
theorem configureBrake_error_state_witness :
    (0 : ℚ) < 10 ∧ (-1 : ℚ) < 0 ∧ (0 : ℚ) ≤ 0 ∧
    (configureBrake ⟨.nonNumber, .num 4⟩ (createBrakeData ⟨none, none⟩ 0) 7 =
      (some .invalidMaxForce, createBrakeData ⟨none, none⟩ 0) ∧
     configureBrake ⟨.num 0, .num 4⟩ (createBrakeData ⟨none, none⟩ 0) 7 =
      (some .invalidMaxForce, createBrakeData ⟨none, none⟩ 0) ∧
     configureBrake ⟨.num 10, .num (-1)⟩ (createBrakeData ⟨none, none⟩ 0) 7 =
      (some .invalidDeadZone, { createBrakeData ⟨none, none⟩ 0 with maxForce := 10 }) ∧
     configureBrake ⟨.num 10, .nonNumber⟩ (createBrakeData ⟨none, none⟩ 0) 7 =
      (some .invalidDeadZone, { createBrakeData ⟨none, none⟩ 0 with maxForce := 10 }) ∧
     configureBrake ⟨.undef, .num (-1)⟩ (createBrakeData ⟨none, none⟩ 0) 7 =
      (some .invalidDeadZone, createBrakeData ⟨none, none⟩ 0) ∧
     configureBrake ⟨.undef, .nonNumber⟩ (createBrakeData ⟨none, none⟩ 0) 7 =
      (some .invalidDeadZone, createBrakeData ⟨none, none⟩ 0)) :=
  ⟨by norm_num, by norm_num, le_rfl,
    configureBrake_error_state (createBrakeData ⟨none, none⟩ 0) 7 10 (-1) 0 (.num 4)
      (by norm_num) (by norm_num) le_rfl⟩

/-- C6: `resetBrake` is idempotent up to timestamp — resetting twice
equals resetting once (at the final clock value), a reset zeroes
`rawReading`, `force`, `value`, `percentage` and clears `active`, and
any number of iterated resets preserves the pre-reset `maxForce` and
`deadZone`. -/
theorem resetBrake_idempotent (d : BrakeData) (t1 t2 t3 : ℕ) :
    resetBrake (resetBrake d t1) t2 = resetBrake d t2 ∧
    (resetBrake d t1).rawReading = 0 ∧
    (resetBrake d t1).force = 0 ∧
    (resetBrake d t1).value = 0 ∧
    (resetBrake d t1).percentage = 0 ∧
    (resetBrake d t1).active = false ∧
    (∀ n : ℕ, ((fun x => resetBrake x t3)^[n] d).maxForce = d.maxForce ∧
              ((fun x => resetBrake x t3)^[n] d).deadZone = d.deadZone) := by
  refine ⟨rfl, rfl, rfl, rfl, rfl, rfl, ?_⟩
  intro n
  induction n generalizing d with
  | zero => exact ⟨rfl, rfl⟩
  | succ k ih =>
    rw [Function.iterate_succ_apply]
    exact ⟨(ih (resetBrake d t3)).1, (ih (resetBrake d t3)).2⟩

/-- C7: while the Arduino is connected every manual update request is
rejected and the stored state is untouched; a numeric reading is
rejected specifically with the conflict error; without the Arduino a
numeric reading is accepted and the snapshot is recomputed by
`updateBrakeData`. -/
theorem updateBrake_hardware_arbitration (d : BrakeData) (r : ℚ) (t : ℕ) :
    (∀ v : JsOpt, (updateBrake true v d t).2 = d ∧
                  (updateBrake true v d t).1.isSome = true) ∧
    updateBrake true (.num r) d t = (some .arduinoConnected, d) ∧
    updateBrake false (.num r) d t = (none, updateBrakeData d r t) := by
  refine ⟨?_, rfl, rfl⟩
  intro v
  cases v <;> exact ⟨rfl, rfl⟩

/-- C10: the telemetry projection rounds `force` to the hundredths grid
(it is an integer number of hundredths, within 1/200 of the stored
force), passes `value`, `percentage`, `active` and `timestamp` through
unchanged, and contains no configuration field — changing `maxForce`
and `deadZone` does not change the projection. -/
theorem getBrakeTelemetryData_shape (d : BrakeData) :
    (∃ n : ℤ, (getBrakeTelemetryData d).force = (n : ℚ) / 100) ∧
    |(getBrakeTelemetryData d).force - d.force| ≤ 1 / 200 ∧
    (getBrakeTelemetryData d).value = d.value ∧
    (getBrakeTelemetryData d).percentage = d.percentage ∧
    (getBrakeTelemetryData d).active = d.active ∧
    (getBrakeTelemetryData d).timestamp = d.timestamp ∧
    (∀ mf dz : ℚ,
      getBrakeTelemetryData { d with maxForce := mf, deadZone := dz } =
        getBrakeTelemetryData d) := by
  refine ⟨⟨⌊d.force * 100 + 1/2⌋, rfl⟩, ?_, rfl, rfl, rfl, rfl, fun mf dz => rfl⟩
  have h1 : ((⌊d.force * 100 + 1/2⌋ : ℤ) : ℚ) ≤ d.force * 100 + 1/2 :=
    Int.floor_le _
  have h2 : d.force * 100 + 1/2 - 1 < ((⌊d.force * 100 + 1/2⌋ : ℤ) : ℚ) :=
    Int.sub_one_lt_floor _
  have hshape : (getBrakeTelemetryData d).force =
      ((⌊d.force * 100 + 1/2⌋ : ℤ) : ℚ) / 100 := rfl
  rw [hshape, abs_le]
  constructor <;> linarith

lemma brakeMatch_spec_line :
    brakeMatch "Acel: 0/1023 (0%) | Freno: 512/1023 (50%) | Clutch: 0/1023 (0%) | FRENANDO" =
      some (512, 50) := by decide

/-- C8: if any of the four field patterns fails to match the inbound
line, `parseArduinoData` leaves the stored current data unchanged and
does not invoke the data callback. -/
theorem parseArduinoData_discards (st : ArduinoData) (line : String) (t : ℕ)
    (h : throttleMatch line = none ∨ brakeMatch line = none ∨
         clutchMatch line = none ∨ statusMatch line = none) :
    parseArduinoData st line t = (st, none) := by
  rcases ht : throttleMatch line with _ | ⟨tv, tp⟩ <;>
  rcases hb : brakeMatch line with _ | ⟨bv, bp⟩ <;>
  rcases hc : clutchMatch line with _ | ⟨cv, cp⟩ <;>
  rcases hs : statusMatch line with _ | stat <;>
  simp_all [parseArduinoData]

/-- Witness for C8: a line missing the trailing status token is
discarded — the state is returned unchanged and no event is emitted. -/
theorem parseArduinoData_discards_witness :
    parseArduinoData (initialArduinoData 0)
      "Acel: 0/1023 (0%) | Freno: 512/1023 (50%) | Clutch: 0/1023 (0%)" 5 =
      (initialArduinoData 0, none) :=
  parseArduinoData_discards (initialArduinoData 0)
    "Acel: 0/1023 (0%) | Freno: 512/1023 (50%) | Clutch: 0/1023 (0%)" 5
    (Or.inr (Or.inr (Or.inr (by decide))))

/-- C9 counterexample: starting connected with no pending retry, a port
error schedules one retry; a subsequent explicit `disconnect()` leaves
that pending retry in place (the class stores no timer handle), and
when the retry fires its `connect()` call proceeds — `isConnected` is
false after disconnect — and the port reopens on the open event.  So a
previously scheduled reconnection retry does reopen the port after
disconnect, refuting the cancellation half of the claim. -/
theorem disconnect_retry_reopens_port :
    (disconnectCall (errorEvent ⟨true, true, false, 0, 0⟩)).pendingRetries = 1 ∧
    (disconnectCall (errorEvent ⟨true, true, false, 0, 0⟩)).isConnected = false ∧
    (disconnectCall (errorEvent ⟨true, true, false, 0, 0⟩)).portOpen = false ∧
    (openEvent (retryFire (disconnectCall (errorEvent ⟨true, true, false, 0, 0⟩)))).portOpen
      = true ∧
    (openEvent (retryFire (disconnectCall (errorEvent ⟨true, true, false, 0, 0⟩)))).isConnected
      = true := by
  decide

/-- C9 amended: `disconnect()` is idempotent (a second disconnect is a
no-op on the state) and releases the port, but it does not cancel
pending reconnection retries: with a retry pending, firing it after the
disconnect runs `connect()` — unblocked because `isConnected` is false —
and the port reopens on the open event. -/
theorem disconnect_idempotent_no_cancel (s : ConnState)
    (h : 0 < s.pendingRetries) :
    disconnectCall (disconnectCall s) = disconnectCall s ∧
    (disconnectCall s).isConnected = false ∧
    (disconnectCall s).portOpen = false ∧
    (disconnectCall s).pendingRetries = s.pendingRetries ∧
    (openEvent (retryFire (disconnectCall s))).portOpen = true := by
  refine ⟨?_, ?_, ?_, ?_, ?_⟩ <;>
    simp [disconnectCall, retryFire, connectCall, openEvent] <;>
    split_ifs <;> simp_all

/-- Witness for the amended C9 at a concrete state with one pending
retry. -/
theorem disconnect_idempotent_no_cancel_witness :
    0 < (⟨false, true, false, 1, 1⟩ : ConnState).pendingRetries ∧
    (disconnectCall (disconnectCall ⟨false, true, false, 1, 1⟩) =
       disconnectCall ⟨false, true, false, 1, 1⟩ ∧
     (disconnectCall ⟨false, true, false, 1, 1⟩).isConnected = false ∧
     (disconnectCall ⟨false, true, false, 1, 1⟩).portOpen = false ∧
     (disconnectCall ⟨false, true, false, 1, 1⟩).pendingRetries =
       (⟨false, true, false, 1, 1⟩ : ConnState).pendingRetries ∧
     (openEvent (retryFire (disconnectCall ⟨false, true, false, 1, 1⟩))).portOpen = true) :=
  ⟨by decide, disconnect_idempotent_no_cancel ⟨false, true, false, 1, 1⟩ (by decide)⟩
